import Mathlib

/-!
Verification development for the request-handler builder and fetch helpers
of the `testing-next-app-amplify` repository.

The embedding is a direct translation of the TypeScript source:

* JavaScript runtime errors are modelled by the inductive type `JsError`,
  whose constructors correspond to the error classes of the source
  (`NotFoundControllerError`, `NotImplementedControllerError`) plus a
  catch-all `other` constructor for every remaining error value; the
  `instanceof` checks of the source become predicates on constructors.
* JavaScript objects used as string-keyed records (`req.query`, `req.body`,
  the builder's `requests` table) are modelled as association lists
  `List (String × α)`; property read, property write and object spread
  (`{...a, ...b}`) are `getProp`, `setProp` and `spreadObj`.
* Fallible/asynchronous code (`schema.validate`, callbacks, the fetch
  helpers) returns `Except`: `.ok` models a resolved promise, `.error`
  models a thrown error / rejected promise.
* The effects a dispatch invocation performs (responses written via
  `res.status(..).json(..)` by the dispatch layer itself, validator calls,
  callback calls, the value returned) are recorded explicitly in a
  `DispatchResult` record, so that claims about "is never invoked" or
  "the layer sends exactly one response" are statable.
* The mutable `requests` field of `ApiBuilder` lives in an explicit `Heap`;
  an `ApiBuilder` value holds the reference (cell index) of its table, and
  `build()` — `const requests = this.requests; return async function …` —
  captures that reference, exactly as the JavaScript closure does.
-/

set_option autoImplicit false

universe u v w

/-- Errors thrown by code in this repository.  `notFoundController` is an
instance of class `NotFoundControllerError` (message "Not Found"),
`notImplementedController` of `NotImplementedControllerError` (message
"Not Implemented"); `other msg` is any other thrown error with message
`msg` (a yup `ValidationError`, a `TypeError`, a `FetchRequestError`, …),
which is an instance of neither controller-error class. -/
inductive JsError : Type where
  | notFoundController : JsError
  | notImplementedController : JsError
  | other : String → JsError
deriving DecidableEq, Repr

/-- The `message` property of the error (set by `super(...)` in the source
constructors). -/
def JsError.message : JsError → String
  | .notFoundController => "Not Found"
  | .notImplementedController => "Not Implemented"
  | .other msg => msg

/-- `error instanceof NotFoundControllerError`. -/
def JsError.isNotFoundController : JsError → Bool
  | .notFoundController => true
  | _ => false

/-- `error instanceof NotImplementedControllerError`. -/
def JsError.isNotImplementedController : JsError → Bool
  | .notImplementedController => true
  | _ => false

/-- Shape of every JSON body the dispatch layer itself writes: the
`ApiReturns` constants, and `{ ...ApiReturns.error, error: error }` for
validation failures.  Fields absent from a constant are `none`. -/
structure ApiBody : Type where
  ok : Bool
  message : Option String := none
  error : Option JsError := none
deriving DecidableEq, Repr

/-- `ApiReturns` constant object of the source. -/
def ApiReturns.ok : ApiBody := { ok := true }

/-- `ApiReturns.error = { ok: false }`. -/
def ApiReturns.error : ApiBody := { ok := false }

/-- `ApiReturns.notFound = { ok: false, message: "Not Found" }`. -/
def ApiReturns.notFound : ApiBody := { ok := false, message := some "Not Found" }

/-- Property read `obj[k]` on a string-keyed record modelled as an
association list: the first entry with key `k`, if any. -/
def getProp {α : Type u} : List (String × α) → String → Option α
  | [], _ => none
  | p :: rest, k => if p.1 = k then some p.2 else getProp rest k

/-- Property write `obj[k] = v`: overwrite the entry in place when the key
is present, append a fresh entry otherwise (JavaScript object update keeps
the insertion order of existing keys). -/
def setProp {α : Type u} (obj : List (String × α)) (k : String) (v : α) :
    List (String × α) :=
  if (getProp obj k).isSome then
    obj.map (fun p => if p.1 = k then (k, v) else p)
  else
    obj ++ [(k, v)]

/-- Object spread `{ ...a, ...b }`: start from `a` and write every property
of `b` into it in order, so `b`'s values overwrite `a`'s on key collision. -/
def spreadObj {α : Type u} (a b : List (String × α)) : List (String × α) :=
  b.foldl (fun acc p => setProp acc p.1 p.2) a

/-- The incoming request, with the fields the handler reads: `req.method`
(a string), `req.query` and `req.body` (string-keyed records of values of
type `V`). -/
structure NextApiRequest (V : Type u) : Type u where
  method : String
  query : List (String × V)
  body : List (String × V)
deriving DecidableEq, Repr

/-- `ApiCallbackContext`: the `{ input, req, res }` object passed to a
registered callback.  The response handle `res` is shared with the
dispatch function and carries no data the embedding needs, so it is not a
field here; responses the dispatch layer itself writes through it are
recorded in `DispatchResult.sent`. -/
structure ApiCallbackContext (V : Type u) (I : Type v) : Type (max u v) where
  input : I
  req : NextApiRequest V
deriving DecidableEq, Repr

/-- A registered `RequestHandler`: the schema's `validate` (taking the
merged candidate object, resolving with the coerced value of type `I` or
rejecting with an error) and the callback (resolving with a value of type
`R` or rejecting with an error). -/
structure RequestHandler (V : Type u) (I : Type v) (R : Type w) :
    Type (max u v w) where
  schema : List (String × V) → Except JsError I
  callback : ApiCallbackContext V I → Except JsError R

/-- The `requests` table of a builder: a string-keyed record of
`RequestHandler`s. -/
abbrev RequestsTable (V : Type u) (I : Type v) (R : Type w) :=
  List (String × RequestHandler V I R)

/-- Everything one invocation of the built dispatch function does:
`sent` are the `(status, body)` responses written by the dispatch layer
itself via `res.status(..).json(..)`; `validated` records each candidate
object passed to `schema.validate`; `callbackInputs` records each `input`
a callback was invoked with; `result` is `some r` when the callback
resolved normally with `r` (which the dispatch function returns
unchanged), `none` otherwise.  The dispatch function itself never throws,
so the invocation always produces such a record. -/
structure DispatchResult (V : Type u) (I : Type v) (R : Type w) :
    Type (max u v w) where
  sent : List (Nat × ApiBody)
  validated : List (List (String × V))
  callbackInputs : List I
  result : Option R
deriving DecidableEq, Repr

/-- The dispatch function returned by `ApiBuilder.build`, lines 136–163 of
the source, applied to the contents of the `requests` table it reads at
invocation time:

1. `requests[req.method]`; if absent, respond 405 with `ApiReturns.error`;
2. otherwise `schema.validate({ ...req.query, ...req.body })`; on
   rejection respond 400 with `{ ...ApiReturns.error, error: error }`;
3. otherwise invoke the callback with `{ input, req, res }`; on normal
   completion return its result; on rejection map
   `NotFoundControllerError` to 404 `ApiReturns.notFound`,
   `NotImplementedControllerError` to 405 `ApiReturns.error`, and any
   other error to 500 `ApiReturns.error`. -/
def handler {V : Type u} {I : Type v} {R : Type w}
    (requests : RequestsTable V I R) (req : NextApiRequest V) :
    DispatchResult V I R :=
  match getProp requests req.method with
  | none =>
      { sent := [(405, ApiReturns.error)], validated := [],
        callbackInputs := [], result := none }
  | some request =>
      let candidate := spreadObj req.query req.body
      match request.schema candidate with
      | .error e =>
          { sent := [(400, { ApiReturns.error with error := some e })],
            validated := [candidate], callbackInputs := [], result := none }
      | .ok input =>
          match request.callback { input := input, req := req } with
          | .ok r =>
              { sent := [], validated := [candidate],
                callbackInputs := [input], result := some r }
          | .error e =>
              if e.isNotFoundController then
                { sent := [(404, ApiReturns.notFound)],
                  validated := [candidate], callbackInputs := [input],
                  result := none }
              else if e.isNotImplementedController then
                { sent := [(405, ApiReturns.error)],
                  validated := [candidate], callbackInputs := [input],
                  result := none }
              else
                { sent := [(500, ApiReturns.error)],
                  validated := [candidate], callbackInputs := [input],
                  result := none }

/-- The mutable store for `requests` objects: cell `r` holds the table of
the builder that allocated it.  JavaScript objects are reference values;
`ApiBuilder` and every closure produced by `build()` hold the cell index,
and reads/writes go through the heap. -/
structure Heap (V : Type u) (I : Type v) (R : Type w) : Type (max u v w) where
  cells : List (RequestsTable V I R)

/-- Read the table stored in cell `r`. -/
def Heap.get {V : Type u} {I : Type v} {R : Type w}
    (h : Heap V I R) (r : Nat) : RequestsTable V I R :=
  (h.cells.get? r).getD []

/-- Overwrite cell `r` with table `t`. -/
def Heap.put {V : Type u} {I : Type v} {R : Type w}
    (h : Heap V I R) (r : Nat) (t : RequestsTable V I R) : Heap V I R :=
  ⟨h.cells.set r t⟩

/-- An `ApiBuilder` value: its `public readonly requests` field is a
reference to the heap cell holding its table.  The field itself is never
reassigned; only the object it points to is mutated. -/
structure ApiBuilder : Type where
  requests : Nat
deriving DecidableEq, Repr

/-- `new ApiBuilder()`: allocate a fresh empty `requests` object. -/
def ApiBuilder.new {V : Type u} {I : Type v} {R : Type w}
    (h : Heap V I R) : Heap V I R × ApiBuilder :=
  (⟨h.cells ++ [[]]⟩, ⟨h.cells.length⟩)

/-- `builder.method(method, schema, callback)`:
`this.requests[method] = { schema, callback }`, a write to the shared
table; the call returns `this`, i.e. the same builder value. -/
def ApiBuilder.method {V : Type u} {I : Type v} {R : Type w}
    (h : Heap V I R) (b : ApiBuilder) (m : String)
    (schema : List (String × V) → Except JsError I)
    (callback : ApiCallbackContext V I → Except JsError R) :
    Heap V I R :=
  h.put b.requests (setProp (h.get b.requests) m ⟨schema, callback⟩)

/-- `builder.get(schema, callback) = builder.method("GET", schema, callback)`. -/
def ApiBuilder.get {V : Type u} {I : Type v} {R : Type w}
    (h : Heap V I R) (b : ApiBuilder)
    (schema : List (String × V) → Except JsError I)
    (callback : ApiCallbackContext V I → Except JsError R) : Heap V I R :=
  ApiBuilder.method h b "GET" schema callback

/-- `builder.post(schema, callback) = builder.method("POST", schema, callback)`. -/
def ApiBuilder.post {V : Type u} {I : Type v} {R : Type w}
    (h : Heap V I R) (b : ApiBuilder)
    (schema : List (String × V) → Except JsError I)
    (callback : ApiCallbackContext V I → Except JsError R) : Heap V I R :=
  ApiBuilder.method h b "POST" schema callback

/-- `builder.put(schema, callback) = builder.method("PUT", schema, callback)`. -/
def ApiBuilder.put {V : Type u} {I : Type v} {R : Type w}
    (h : Heap V I R) (b : ApiBuilder)
    (schema : List (String × V) → Except JsError I)
    (callback : ApiCallbackContext V I → Except JsError R) : Heap V I R :=
  ApiBuilder.method h b "PUT" schema callback

/-- The closure returned by `build()`.  The source does
`const requests = this.requests` and the returned function reads
`requests[req.method]`: the closure captures the *reference* to the
builder's table, so this structure holds exactly that reference. -/
structure BuiltHandler : Type where
  requests : Nat
deriving DecidableEq, Repr

/-- `builder.build()`: returns the dispatch closure, which captures the
reference stored in the builder's `requests` field. -/
def ApiBuilder.build (b : ApiBuilder) : BuiltHandler :=
  ⟨b.requests⟩

/-- Invoking a built dispatch function when the heap is `h`: the closure
dereferences its captured `requests` reference — obtaining the table as it
stands *now* — and runs the dispatch pipeline on it. -/
def BuiltHandler.invoke {V : Type u} {I : Type v} {R : Type w}
    (h : Heap V I R) (f : BuiltHandler) (req : NextApiRequest V) :
    DispatchResult V I R :=
  handler (h.get f.requests) req

/-- The argument object passed to the global `fetch`: the URL, the method,
the headers list, and the request body (`none` for GET; the
`JSON.stringify`d data for POST/PUT). -/
structure FetchInit : Type where
  url : String
  method : String
  headers : List (String × String)
  body : Option String := none
deriving DecidableEq, Repr

/-- The response the runtime's `fetch` resolves with, in the two parts the
helpers read: `status` and the value `response.json()` resolves with
(of type `J`). -/
structure FetchResponse (J : Type u) : Type u where
  status : Nat
  json : J
deriving DecidableEq, Repr

/-- `FetchRequestError`: carries the raw `response` object and the message
passed to the constructor. -/
structure FetchRequestError (J : Type u) : Type u where
  response : FetchResponse J
  message : String
deriving DecidableEq, Repr

/-- The headers object both fetch helpers pass, in source order. -/
def jsonFetchHeaders : List (String × String) :=
  [("Accept", "application/json"),
   ("Content-Type", "application/json;charset=UTF-8")]

/-- `fetchGet(url)`: issue a GET through the ambient `fetch` (here an
explicit parameter mapping the fetch arguments to the response it resolves
with); throw `FetchRequestError(response, "Error fetching from " + url)`
when `response.status >= 300`, otherwise return `response.json()`. -/
def fetchGet {J : Type u} (fetchImpl : FetchInit → FetchResponse J)
    (url : String) : Except (FetchRequestError J) J :=
  let response := fetchImpl
    { url := url, method := "GET", headers := jsonFetchHeaders, body := none }
  if response.status ≥ 300 then
    .error ⟨response, "Error fetching from " ++ url⟩
  else
    .ok response.json

/-- `fetchPostOrPut(method, url, data)`: issue the request with
`body: JSON.stringify(data)` (`stringify` is the ambient serializer, `D`
the type of `data`); same status check and result as `fetchGet`. -/
def fetchPostOrPut {J : Type u} {D : Type v}
    (fetchImpl : FetchInit → FetchResponse J) (stringify : D → String)
    (method : String) (url : String) (data : D) :
    Except (FetchRequestError J) J :=
  let response := fetchImpl
    { url := url, method := method, headers := jsonFetchHeaders,
      body := some (stringify data) }
  if response.status ≥ 300 then
    .error ⟨response, "Error fetching from " ++ url⟩
  else
    .ok response.json

/-- `fetchPost(url, data) = fetchPostOrPut("POST", url, data)`. -/
def fetchPost {J : Type u} {D : Type v}
    (fetchImpl : FetchInit → FetchResponse J) (stringify : D → String)
    (url : String) (data : D) : Except (FetchRequestError J) J :=
  fetchPostOrPut fetchImpl stringify "POST" url data

/-- `fetchPut(url, data) = fetchPostOrPut("PUT", url, data)`. -/
def fetchPut {J : Type u} {D : Type v}
    (fetchImpl : FetchInit → FetchResponse J) (stringify : D → String)
    (url : String) (data : D) : Except (FetchRequestError J) J :=
  fetchPostOrPut fetchImpl stringify "PUT" url data

/-! ### Lemmas about the JavaScript-object model -/

theorem getProp_append {α : Type u} (a b : List (String × α)) (k : String) :
    getProp (a ++ b) k =
      match getProp a k with
      | some v => some v
      | none => getProp b k := by
  induction a with
  | nil => simp [getProp]
  | cons p rest ih =>
      by_cases h : p.1 = k
      · simp [getProp, h]
      · simp only [List.cons_append, getProp, if_neg h]
        exact ih

theorem getProp_map_overwrite_self {α : Type u}
    (obj : List (String × α)) (k : String) (v : α)
    (h : (getProp obj k).isSome) :
    getProp (obj.map (fun p => if p.1 = k then (k, v) else p)) k = some v := by
  induction obj with
  | nil => simp [getProp] at h
  | cons p rest ih =>
      by_cases hp : p.1 = k
      · simp [getProp, hp]
      · simp only [getProp, if_neg hp] at h
        simpa only [List.map_cons, getProp, if_neg hp] using ih h

theorem getProp_map_overwrite_ne {α : Type u}
    (obj : List (String × α)) (k k' : String) (v : α) (hne : k' ≠ k) :
    getProp (obj.map (fun p => if p.1 = k' then (k', v) else p)) k
      = getProp obj k := by
  induction obj with
  | nil => simp [getProp]
  | cons p rest ih =>
      by_cases hp : p.1 = k'
      · have hpk : p.1 ≠ k := by rw [hp]; exact hne
        simp only [List.map_cons, if_pos hp, getProp, if_neg hne, if_neg hpk]
        exact ih
      · by_cases hpk : p.1 = k
        · simp only [List.map_cons, if_neg hp, getProp, if_pos hpk]
        · simp only [List.map_cons, if_neg hp, getProp, if_neg hpk]
          exact ih

theorem getProp_setProp_self {α : Type u}
    (obj : List (String × α)) (k : String) (v : α) :
    getProp (setProp obj k v) k = some v := by
  unfold setProp
  by_cases h : (getProp obj k).isSome
  · rw [if_pos h]
    exact getProp_map_overwrite_self obj k v h
  · rw [if_neg h, getProp_append]
    rw [Option.not_isSome_iff_eq_none] at h
    rw [h]
    simp [getProp]

theorem getProp_setProp_ne {α : Type u}
    (obj : List (String × α)) (k k' : String) (v : α) (hne : k' ≠ k) :
    getProp (setProp obj k' v) k = getProp obj k := by
  unfold setProp
  by_cases h : (getProp obj k').isSome
  · rw [if_pos h]
    exact getProp_map_overwrite_ne obj k k' v hne
  · rw [if_neg h, getProp_append]
    cases hobj : getProp obj k with
    | some w => rfl
    | none => simp [getProp, hne]

theorem getProp_eq_none_of_forall_ne {α : Type u}
    (obj : List (String × α)) (k : String)
    (h : ∀ p ∈ obj, p.1 ≠ k) : getProp obj k = none := by
  induction obj with
  | nil => rfl
  | cons p rest ih =>
      have hp : p.1 ≠ k := h p (List.mem_cons_self p rest)
      simp only [getProp, if_neg hp]
      exact ih (fun q hq => h q (List.mem_cons_of_mem p hq))

theorem getProp_eq_none_of_not_mem {α : Type u}
    (obj : List (String × α)) (k : String)
    (h : k ∉ obj.map Prod.fst) : getProp obj k = none := by
  refine getProp_eq_none_of_forall_ne obj k (fun p hp hpk => h ?_)
  rw [← hpk]
  exact List.mem_map_of_mem Prod.fst hp

theorem getProp_spreadObj {α : Type u} (a b : List (String × α)) (k : String)
    (hnodup : (b.map Prod.fst).Nodup) :
    getProp (spreadObj a b) k =
      match getProp b k with
      | some v => some v
      | none => getProp a k := by
  induction b generalizing a with
  | nil => simp [spreadObj, getProp]
  | cons p rest ih =>
      rw [List.map_cons, List.nodup_cons] at hnodup
      have hstep : spreadObj a (p :: rest) = spreadObj (setProp a p.1 p.2) rest := rfl
      rw [hstep, ih (setProp a p.1 p.2) hnodup.2]
      by_cases hk : p.1 = k
      · rw [← hk, getProp_eq_none_of_not_mem rest p.1 hnodup.1]
        simp only [getProp, if_pos rfl]
        exact getProp_setProp_self a p.1 p.2
      · simp only [getProp, if_neg hk]
        cases hrk : getProp rest k with
        | some w => rfl
        | none => exact getProp_setProp_ne a k p.1 p.2 hk

theorem list_get?_set_self {α : Type u} (l : List α) (r : Nat) (t : α)
    (hr : r < l.length) : (l.set r t).get? r = some t := by
  induction l generalizing r with
  | nil => simp at hr
  | cons x xs ih =>
      cases r with
      | zero => rfl
      | succ n =>
          simp only [List.set, List.get?]
          exact ih n (by simpa using hr)

theorem Heap.get_put_self {V : Type u} {I : Type v} {R : Type w}
    (h : Heap V I R) (r : Nat) (t : RequestsTable V I R)
    (hr : r < h.cells.length) : (h.put r t).get r = t := by
  unfold Heap.get Heap.put
  rw [list_get?_set_self h.cells r t hr]
  rfl

/-! ### Claim theorems: dispatch pipeline -/

/-- C3: for every request whose method string has no registered entry in
the dispatch function's handler table, the dispatch function responds
HTTP 405 with body `{ok:false}`, and neither the validator nor any
callback is invoked (`validated` and `callbackInputs` are empty). -/
theorem C3_unregistered_method_405 {V : Type u} {I : Type v} {R : Type w}
    (table : RequestsTable V I R) (req : NextApiRequest V)
    (hlook : getProp table req.method = none) :
    handler table req =
      { sent := [(405, ApiReturns.error)], validated := [],
        callbackInputs := [], result := none } := by
  unfold handler
  rw [hlook]

/-- C9: method lookup is an exact, case-sensitive string match: whenever
the request's method string differs from the key of every registered
entry (for example `"get"` when only `"GET"` is registered), the dispatch
function responds HTTP 405 with body `{ok:false}` without invoking the
validator or a callback. -/
theorem C9_method_match_case_sensitive {V : Type u} {I : Type v} {R : Type w}
    (table : RequestsTable V I R) (req : NextApiRequest V)
    (hne : ∀ p ∈ table, p.1 ≠ req.method) :
    handler table req =
      { sent := [(405, ApiReturns.error)], validated := [],
        callbackInputs := [], result := none } := by
  unfold handler
  rw [getProp_eq_none_of_forall_ne table req.method hne]

/-- C2: when the method is registered and validation succeeds, a callback
that rejects with `NotFoundControllerError` yields HTTP 404 with body
`{ok:false, message:"Not Found"}`; one that rejects with
`NotImplementedControllerError` yields HTTP 405 with body `{ok:false}`;
one that rejects with any other error yields HTTP 500 with body
`{ok:false}` — in all three cases the body is the fixed constant and does
not depend on the thrown error's own message. -/
theorem C2_callback_error_mapping {V : Type u} {I : Type v} {R : Type w}
    (table : RequestsTable V I R) (req : NextApiRequest V)
    (rh : RequestHandler V I R) (i : I)
    (hlook : getProp table req.method = some rh)
    (hval : rh.schema (spreadObj req.query req.body) = .ok i) :
    (rh.callback { input := i, req := req } = .error .notFoundController →
       handler table req =
         { sent := [(404, ApiReturns.notFound)],
           validated := [spreadObj req.query req.body],
           callbackInputs := [i], result := none }) ∧
    (rh.callback { input := i, req := req } = .error .notImplementedController →
       handler table req =
         { sent := [(405, ApiReturns.error)],
           validated := [spreadObj req.query req.body],
           callbackInputs := [i], result := none }) ∧
    (∀ msg, rh.callback { input := i, req := req } = .error (.other msg) →
       handler table req =
         { sent := [(500, ApiReturns.error)],
           validated := [spreadObj req.query req.body],
           callbackInputs := [i], result := none }) := by
  refine ⟨fun hcb => ?_, fun hcb => ?_, fun msg hcb => ?_⟩ <;>
    simp [handler, hlook, hval, hcb,
      JsError.isNotFoundController, JsError.isNotImplementedController]

/-- C4: for a registered method, the candidate object passed to the
validator is the shallow merge of `req.query` and `req.body` with body
values overwriting query values on key collision; on validation failure
the dispatch function responds HTTP 400 with `ok:false` and the
validation error attached, without invoking the callback; on success the
callback is invoked exactly once, with the coerced validated value as its
input. -/
theorem C4_merge_and_validation {V : Type u} {I : Type v} {R : Type w}
    (table : RequestsTable V I R) (req : NextApiRequest V)
    (rh : RequestHandler V I R)
    (hlook : getProp table req.method = some rh)
    (hnodup : (req.body.map Prod.fst).Nodup) :
    (∀ k, getProp (spreadObj req.query req.body) k =
       match getProp req.body k with
       | some v => some v
       | none => getProp req.query k) ∧
    (∀ e, rh.schema (spreadObj req.query req.body) = .error e →
       handler table req =
         { sent := [(400, { ok := false, message := none, error := some e })],
           validated := [spreadObj req.query req.body],
           callbackInputs := [], result := none }) ∧
    (∀ i, rh.schema (spreadObj req.query req.body) = .ok i →
       (handler table req).validated = [spreadObj req.query req.body] ∧
       (handler table req).callbackInputs = [i]) := by
  refine ⟨fun k => getProp_spreadObj req.query req.body k hnodup,
    fun e hval => ?_, fun i hval => ?_⟩
  · simp [handler, hlook, hval, ApiReturns.error]
  · simp only [handler, hlook, hval]
    cases hcb : rh.callback { input := i, req := req } with
    | ok r => simp [hcb]
    | error e =>
        by_cases h1 : e.isNotFoundController <;>
          by_cases h2 : e.isNotImplementedController <;>
            simp [hcb, h1, h2]

/-- C5: the dispatch function never re-throws an error from the validator
or a callback (in the embedding it is a total function into
`DispatchResult`): every invocation either has the dispatch layer send
exactly one HTTP response, or — when the callback completes normally —
sends none and returns the callback's result. -/
theorem C5_always_exactly_one_outcome {V : Type u} {I : Type v} {R : Type w}
    (table : RequestsTable V I R) (req : NextApiRequest V) :
    ((handler table req).result = none ∧ (handler table req).sent.length = 1) ∨
    ((handler table req).sent = [] ∧ ∃ r, (handler table req).result = some r) := by
  cases hl : getProp table req.method with
  | none => simp [handler, hl]
  | some rh =>
      cases hv : rh.schema (spreadObj req.query req.body) with
      | error e => simp [handler, hl, hv]
      | ok i =>
          cases hc : rh.callback { input := i, req := req } with
          | ok r => simp [handler, hl, hv, hc]
          | error e =>
              by_cases h1 : e.isNotFoundController <;>
                by_cases h2 : e.isNotImplementedController <;>
                  simp [handler, hl, hv, hc, h1, h2]

/-- C6: every status code set by the dispatch layer itself (responses the
layer writes, as opposed to ones a callback writes) lies in
`{400, 404, 405, 500}`. -/
theorem C6_layer_status_codes {V : Type u} {I : Type v} {R : Type w}
    (table : RequestsTable V I R) (req : NextApiRequest V)
    (s : Nat) (b : ApiBody)
    (hmem : (s, b) ∈ (handler table req).sent) :
    s = 400 ∨ s = 404 ∨ s = 405 ∨ s = 500 := by
  cases hl : getProp table req.method with
  | none =>
      simp [handler, hl, Prod.mk.injEq] at hmem
      omega
  | some rh =>
      cases hv : rh.schema (spreadObj req.query req.body) with
      | error e =>
          simp [handler, hl, hv, Prod.mk.injEq] at hmem
          omega
      | ok i =>
          cases hc : rh.callback { input := i, req := req } with
          | ok r => simp [handler, hl, hv, hc] at hmem
          | error e =>
              by_cases h1 : e.isNotFoundController <;>
                by_cases h2 : e.isNotImplementedController <;>
                  simp [handler, hl, hv, hc, h1, h2, Prod.mk.injEq] at hmem <;>
                  omega

/-- C10: the typed-error-to-status mapping applies only to the callback
phase: when the schema validator itself rejects with
`NotFoundControllerError` or `NotImplementedControllerError`, the dispatch
function responds HTTP 400 with that error attached in the `error` field
(the ordinary validation-failure response), not 404 or 405. -/
theorem C10_validator_sentinel_still_400 {V : Type u} {I : Type v} {R : Type w}
    (table : RequestsTable V I R) (req : NextApiRequest V)
    (rh : RequestHandler V I R) (e : JsError)
    (_he : e = .notFoundController ∨ e = .notImplementedController)
    (hlook : getProp table req.method = some rh)
    (hval : rh.schema (spreadObj req.query req.body) = .error e) :
    handler table req =
      { sent := [(400, { ok := false, message := none, error := some e })],
        validated := [spreadObj req.query req.body],
        callbackInputs := [], result := none } := by
  simp [handler, hlook, hval, ApiReturns.error]

/-! ### Claim theorems: the builder and `build()` -/

/-- C1 (amended): `build()` captures the builder's `requests` table by
*reference*, not by value: all built dispatch functions share the
builder's single mutable table, so a registration performed on the
builder *after* `build()` is visible to the already-built dispatch
function — invoking it dispatches against the updated table. -/
theorem C1_amended_build_captures_reference {V : Type u} {I : Type v} {R : Type w}
    (h : Heap V I R) (b : ApiBuilder) (m : String)
    (schema : List (String × V) → Except JsError I)
    (callback : ApiCallbackContext V I → Except JsError R)
    (req : NextApiRequest V)
    (hb : b.requests < h.cells.length) :
    BuiltHandler.invoke (ApiBuilder.method h b m schema callback)
        (ApiBuilder.build b) req
      = handler (setProp (h.get b.requests) m ⟨schema, callback⟩) req := by
  show handler ((h.put b.requests
      (setProp (h.get b.requests) m ⟨schema, callback⟩)).get b.requests) req = _
  rw [Heap.get_put_self _ _ _ hb]

/-- A sample registered handler over `Nat` values: its schema resolves
with the coerced value `0`, its callback resolves normally with `7`. -/
def sampleRequestHandler : RequestHandler Nat Nat Nat :=
  { schema := fun _ => .ok 0, callback := fun _ => .ok 7 }

/-- A GET request with empty query and body. -/
def sampleGetRequest : NextApiRequest Nat :=
  { method := "GET", query := [], body := [] }

/-- `new ApiBuilder()` on an empty heap. -/
def c1Alloc : Heap Nat Nat Nat × ApiBuilder :=
  ApiBuilder.new { cells := [] }

/-- The heap right after allocation, before any registration. -/
def c1HeapAtBuild : Heap Nat Nat Nat := c1Alloc.1

/-- The freshly allocated builder. -/
def c1Builder : ApiBuilder := c1Alloc.2

/-- The dispatch function built *before* any handler is registered. -/
def c1Dispatch : BuiltHandler := ApiBuilder.build c1Builder

/-- The heap after `builder.get(schema, callback)` is called *after*
`build()`. -/
def c1HeapAfterRegistration : Heap Nat Nat Nat :=
  ApiBuilder.get c1HeapAtBuild c1Builder
    sampleRequestHandler.schema sampleRequestHandler.callback

/-- C1 (counterexample): a dispatch function built from a builder with no
registrations responds 405 to a GET request, but after `builder.get(...)`
is called — *after* `build()` — the very same built dispatch function
finds the new handler and invokes it, so registration after `build()`
*does* change the behavior of the already-built dispatch function,
contrary to the claim. -/
theorem C1_counterexample_later_registration_visible :
    BuiltHandler.invoke c1HeapAtBuild c1Dispatch sampleGetRequest
        = { sent := [(405, ApiReturns.error)], validated := [],
            callbackInputs := [], result := none } ∧
    BuiltHandler.invoke c1HeapAfterRegistration c1Dispatch sampleGetRequest
        = { sent := [], validated := [[]], callbackInputs := [0],
            result := some 7 } ∧
    BuiltHandler.invoke c1HeapAtBuild c1Dispatch sampleGetRequest
      ≠ BuiltHandler.invoke c1HeapAfterRegistration c1Dispatch sampleGetRequest := by
  refine ⟨rfl, rfl, ?_⟩
  decide

/-! ### Claim theorems: fetch helpers -/

/-- C7: each fetch helper fails with a `FetchRequestError` carrying the
raw response and the message `"Error fetching from " ++ url` exactly when
the response status is `≥ 300`, and otherwise returns the decoded JSON
body (so status 299 succeeds and status 300 fails). -/
theorem C7_fetch_status_boundary {J : Type u} {D : Type v}
    (fetchImpl : FetchInit → FetchResponse J) (stringify : D → String)
    (url : String) (data : D) (rGet rPost rPut : FetchResponse J)
    (hG : fetchImpl { url := url, method := "GET", headers := jsonFetchHeaders, body := none } = rGet)
    (hP : fetchImpl { url := url, method := "POST", headers := jsonFetchHeaders, body := some (stringify data) } = rPost)
    (hU : fetchImpl { url := url, method := "PUT", headers := jsonFetchHeaders, body := some (stringify data) } = rPut) :
    (fetchGet fetchImpl url =
      if 300 ≤ rGet.status then
        Except.error ⟨rGet, "Error fetching from " ++ url⟩
      else Except.ok rGet.json) ∧
    (fetchPost fetchImpl stringify url data =
      if 300 ≤ rPost.status then
        Except.error ⟨rPost, "Error fetching from " ++ url⟩
      else Except.ok rPost.json) ∧
    (fetchPut fetchImpl stringify url data =
      if 300 ≤ rPut.status then
        Except.error ⟨rPut, "Error fetching from " ++ url⟩
      else Except.ok rPut.json) := by
  refine ⟨?_, ?_, ?_⟩ <;>
    simp only [fetchGet, fetchPost, fetchPut, fetchPostOrPut, hG, hP, hU,
      ge_iff_le]

/-- C8: `fetchPost(url, data)` delegates to
`fetchPostOrPut("POST", url, data)` and `fetchPut(url, data)` to
`fetchPostOrPut("PUT", url, data)`: the wrappers are equal to the shared
implementation at the fixed verb, for every fetch implementation, URL and
payload. -/
theorem C8_post_put_delegate_to_shared {J : Type u} {D : Type v}
    (fetchImpl : FetchInit → FetchResponse J) (stringify : D → String)
    (url : String) (data : D) :
    fetchPost fetchImpl stringify url data
        = fetchPostOrPut fetchImpl stringify "POST" url data ∧
    fetchPut fetchImpl stringify url data
        = fetchPostOrPut fetchImpl stringify "PUT" url data :=
  ⟨rfl, rfl⟩

/-! ### Witnesses: concrete instantiations of the claim theorems -/

/-- A handler whose callback rejects with `NotFoundControllerError`. -/
def c2NotFoundHandler : RequestHandler Nat Nat Nat :=
  { schema := fun _ => .ok 3, callback := fun _ => .error .notFoundController }

/-- A table with `c2NotFoundHandler` registered for GET. -/
def c2Table : RequestsTable Nat Nat Nat := [("GET", c2NotFoundHandler)]

/-- Witness for C2 at a concrete table and request: the not-found rejection
maps to 404 with the fixed `notFound` body. -/
theorem C2_witness :
    handler c2Table sampleGetRequest =
      { sent := [(404, ApiReturns.notFound)], validated := [[]],
        callbackInputs := [3], result := none } :=
  (C2_callback_error_mapping c2Table sampleGetRequest c2NotFoundHandler 3
    rfl rfl).1 rfl

/-- Witness for C3: the empty table responds 405 to a GET request without
invoking validator or callback. -/
theorem C3_witness :
    handler ([] : RequestsTable Nat Nat Nat) sampleGetRequest =
      { sent := [(405, ApiReturns.error)], validated := [],
        callbackInputs := [], result := none } :=
  C3_unregistered_method_405 [] sampleGetRequest rfl

/-- A handler whose schema always rejects with a validation error. -/
def c4FailSchemaHandler : RequestHandler Nat Nat Nat :=
  { schema := fun _ => .error (.other "ValidationError"),
    callback := fun _ => .ok 0 }

/-- A table with `c4FailSchemaHandler` registered for GET. -/
def c4Table : RequestsTable Nat Nat Nat := [("GET", c4FailSchemaHandler)]

/-- A request whose query and body collide on key `"k"`. -/
def c4Request : NextApiRequest Nat :=
  { method := "GET", query := [("k", 1), ("q", 2)], body := [("k", 9)] }

/-- Witness for C4 at a concrete request: the body value 9 overwrites the
query value 1 on the colliding key, and the failing validation yields 400
with the error attached and no callback invocation. -/
theorem C4_witness :
    getProp (spreadObj c4Request.query c4Request.body) "k" = some 9 ∧
    handler c4Table c4Request =
      { sent := [(400, { ok := false, message := none, error := some (JsError.other "ValidationError") })],
        validated := [spreadObj c4Request.query c4Request.body],
        callbackInputs := [], result := none } := by
  have h := C4_merge_and_validation c4Table c4Request c4FailSchemaHandler
    rfl (by decide)
  exact ⟨h.1 "k", h.2.1 (JsError.other "ValidationError") rfl⟩

/-- Witness for C6: the 405 produced for an unregistered method is one of
the four layer status codes. -/
theorem C6_witness :
    (405 : Nat) = 400 ∨ (405 : Nat) = 404 ∨ (405 : Nat) = 405 ∨
      (405 : Nat) = 500 :=
  C6_layer_status_codes ([] : RequestsTable Nat Nat Nat) sampleGetRequest
    405 ApiReturns.error (by decide)

/-- A fetch implementation answering every request with status 299. -/
def fetch299 : FetchInit → FetchResponse Nat := fun _ => { status := 299, json := 42 }

/-- A fetch implementation answering every request with status 300. -/
def fetch300 : FetchInit → FetchResponse Nat := fun _ => { status := 300, json := 0 }

/-- Witness for C7: status 299 succeeds with the decoded JSON for GET and
PUT, and status 300 fails with a `FetchRequestError` carrying the raw
response and a message naming the URL for POST. -/
theorem C7_witness :
    fetchGet fetch299 "u" = Except.ok 42 ∧
    fetchPost fetch300 (fun _ => "null") "u" 5
      = Except.error { response := { status := 300, json := 0 }, message := "Error fetching from u" } ∧
    fetchPut fetch299 (fun _ => "null") "u" 5 = Except.ok 42 := by
  have h299 := C7_fetch_status_boundary fetch299 (fun _ => "null") "u" 5
    _ _ _ rfl rfl rfl
  have h300 := C7_fetch_status_boundary fetch300 (fun _ => "null") "u" 5
    _ _ _ rfl rfl rfl
  refine ⟨?_, ?_, ?_⟩
  · simpa [fetch299] using h299.1
  · simpa [fetch300] using h300.2.1
  · simpa [fetch299] using h299.2.2

/-- A table with a handler registered only under the uppercase key. -/
def c9Table : RequestsTable Nat Nat Nat := [("GET", sampleRequestHandler)]

/-- A request whose method is the lowercase spelling of the same verb. -/
def c9LowercaseRequest : NextApiRequest Nat :=
  { method := "get", query := [], body := [] }

/-- Witness for C9: with only `"GET"` registered, a request with method
`"get"` gets 405 — the lookup is case-sensitive. -/
theorem C9_witness :
    handler c9Table c9LowercaseRequest =
      { sent := [(405, ApiReturns.error)], validated := [],
        callbackInputs := [], result := none } :=
  C9_method_match_case_sensitive c9Table c9LowercaseRequest (by
    intro p hp
    rcases List.mem_singleton.mp hp with rfl
    decide)

/-- A handler whose schema itself rejects with `NotFoundControllerError`. -/
def c10Handler : RequestHandler Nat Nat Nat :=
  { schema := fun _ => .error .notFoundController, callback := fun _ => .ok 0 }

/-- A table with `c10Handler` registered for GET. -/
def c10Table : RequestsTable Nat Nat Nat := [("GET", c10Handler)]

/-- Witness for C10: the validator rejecting with
`NotFoundControllerError` still yields 400 (with the error attached), not
404. -/
theorem C10_witness :
    handler c10Table sampleGetRequest =
      { sent := [(400, { ok := false, message := none, error := some JsError.notFoundController })],
        validated := [[]], callbackInputs := [], result := none } :=
  C10_validator_sentinel_still_400 c10Table sampleGetRequest c10Handler
    JsError.notFoundController (Or.inl rfl) rfl rfl

/-- Witness for the amended C1: on the concrete one-builder heap, the
dispatch function built before any registration sees the `"GET"` handler
registered afterwards. -/
theorem C1_amended_witness :
    BuiltHandler.invoke
        (ApiBuilder.method c1HeapAtBuild c1Builder "GET"
          sampleRequestHandler.schema sampleRequestHandler.callback)
        (ApiBuilder.build c1Builder) sampleGetRequest
      = handler (setProp (c1HeapAtBuild.get c1Builder.requests) "GET"
          ⟨sampleRequestHandler.schema, sampleRequestHandler.callback⟩)
          sampleGetRequest :=
  C1_amended_build_captures_reference c1HeapAtBuild c1Builder "GET"
    sampleRequestHandler.schema sampleRequestHandler.callback
    sampleGetRequest (by decide)
